import Mathlib

/-!
Shallow embedding of the dual-provider image-generation core of the
isometricon repository: the error classifiers (`src/lib/providers/types.ts`),
the two provider adapters (`src/lib/providers/huggingface-provider.ts`,
`src/lib/providers/cloudflare-provider.ts`) and the orchestrator
(`ProviderManager` in the provider-manager module).

Network effects are made explicit: each adapter's `generate` takes the
resolved credentials (`Option String`, `none` when the environment getter
throws) and the outcome of the single outbound `fetch` as arguments, and
returns the `ProviderResult` paired with a `Bool` recording whether the
network call was reached.  The orchestrator's `generate` additionally
returns the ordered list of adapter invocations (which adapter was called,
with which prompt and options) so that call-order and parameter-preservation
properties can be stated.
-/

namespace Isometricon

/-- Style presets, from `src/types/index.ts` (`StylePreset`). -/
inductive StylePreset where
  | default
  | warm
  | monochrome
  | pastel
deriving DecidableEq, Repr

/-- Generation options, from `src/lib/providers/types.ts` (`GenerationOptions`).
Timeout is in milliseconds. -/
structure GenerationOptions where
  style : StylePreset
  negativePrompt : Option String := none
  timeout : Option Nat := none
deriving DecidableEq, Repr

/-- Error codes, from `src/lib/providers/types.ts` (`ProviderErrorCode`). -/
inductive ProviderErrorCode where
  | RATE_LIMIT
  | TIMEOUT
  | SERVICE_UNAVAILABLE
  | SERVER_ERROR
  | UNAUTHORIZED
  | VALIDATION_ERROR
  | PAYMENT_REQUIRED
  | UNKNOWN
deriving DecidableEq, Repr

/-- Provider error, from `src/lib/providers/types.ts` (`ProviderError`). -/
structure ProviderError where
  code : ProviderErrorCode
  message : String
  retryAfter : Option Nat := none
  shouldFallback : Bool
deriving DecidableEq, Repr

/-- Result of one adapter call, from `src/lib/providers/types.ts`
(`ProviderResult`). -/
structure ProviderResult where
  success : Bool
  image : Option String := none
  error : Option ProviderError := none
deriving DecidableEq, Repr

/-- JavaScript `a || b` on an optional string: `undefined` and the empty
string are falsy, so the default is used for both. -/
def jsOrString (s : Option String) (d : String) : String :=
  match s with
  | some v => if v = "" then d else v
  | none => d

/-- JavaScript truthiness of an optional string (`undefined` and `""` are
falsy). -/
def jsTruthy (s : Option String) : Bool :=
  match s with
  | some v => v ≠ ""
  | none => false

/-- `FALLBACK_HTTP_STATUSES` from `src/lib/providers/types.ts`. -/
def FALLBACK_HTTP_STATUSES : List Nat := [402, 403, 429, 500, 503]

/-- `NON_FALLBACK_HTTP_STATUSES` from `src/lib/providers/types.ts`. -/
def NON_FALLBACK_HTTP_STATUSES : List Nat := [400, 401]

/-- `shouldTriggerFallback` from `src/lib/providers/types.ts`:
membership in the fallback list, then the non-fallback list, then the
5xx range, else false. -/
def shouldTriggerFallback (status : Nat) : Bool :=
  if status ∈ FALLBACK_HTTP_STATUSES then
    true
  else if status ∈ NON_FALLBACK_HTTP_STATUSES then
    false
  else if 500 ≤ status ∧ status < 600 then
    true
  else
    false

/-- `httpStatusToErrorCode` from `src/lib/providers/types.ts`; the
`switch` is rendered as an equality chain. -/
def httpStatusToErrorCode (status : Nat) : ProviderErrorCode :=
  if status = 402 ∨ status = 403 then .PAYMENT_REQUIRED
  else if status = 429 then .RATE_LIMIT
  else if status = 408 then .TIMEOUT
  else if status = 503 then .SERVICE_UNAVAILABLE
  else if status = 500 then .SERVER_ERROR
  else if status = 401 then .UNAUTHORIZED
  else if status = 400 then .VALIDATION_ERROR
  else if 500 ≤ status ∧ status < 600 then .SERVER_ERROR
  else .UNKNOWN

/-- The `defaultMessages` record inside `createProviderError`
(`src/lib/providers/types.ts`). -/
def defaultMessages : ProviderErrorCode → String
  | .RATE_LIMIT => "Too many requests. Please try again later."
  | .TIMEOUT => "Request timed out. Please try again."
  | .SERVICE_UNAVAILABLE => "Service is currently unavailable. Please try again later."
  | .SERVER_ERROR => "A server error occurred. Please try again."
  | .UNAUTHORIZED => "Authentication error occurred. Please refresh the page."
  | .VALIDATION_ERROR => "Invalid request. Please check your input."
  | .PAYMENT_REQUIRED => "Service quota exhausted. Switching to backup provider."
  | .UNKNOWN => "An unexpected error occurred."

/-- `createProviderError` from `src/lib/providers/types.ts`.  Note the
`retryAfter` field: for RATE_LIMIT it is the hint defaulted to 60
(`retryAfter ?? 60`), otherwise the hint is passed through unchanged. -/
def createProviderError (status : Nat) (message : Option String)
    (retryAfter : Option Nat) : ProviderError :=
  let code := httpStatusToErrorCode status
  let shouldFallback := shouldTriggerFallback status
  { code := code
    message := jsOrString message (defaultMessages code)
    retryAfter := if code = .RATE_LIMIT then some (retryAfter.getD 60) else retryAfter
    shouldFallback := shouldFallback }

/-- `createTimeoutError` from `src/lib/providers/types.ts`. -/
def createTimeoutError : ProviderError :=
  { code := .TIMEOUT
    message := "Request timed out. Please try again."
    retryAfter := none
    shouldFallback := true }

/-- One entry of the `errors` array of a Cloudflare API response
(`src/lib/providers/cloudflare-provider.ts`). -/
structure CloudflareErrorEntry where
  code : Nat
  message : String
deriving DecidableEq, Repr

/-- The `result` object of a Cloudflare API response. -/
structure CloudflareResultBody where
  image : Option String := none
deriving DecidableEq, Repr

/-- `CloudflareImageResponse` from `src/lib/providers/cloudflare-provider.ts`. -/
structure CloudflareImageResponse where
  success : Bool
  result : Option CloudflareResultBody := none
  errors : Option (List CloudflareErrorEntry) := none
  messages : Option (List String) := none
deriving DecidableEq, Repr

/-- `transformCloudflareResponse` from
`src/lib/providers/cloudflare-provider.ts`.  The guard
`response.success && response.result?.image` uses JavaScript truthiness,
so an empty-string image falls through to the error branch. -/
def transformCloudflareResponse (response : CloudflareImageResponse) : ProviderResult :=
  let imageField := response.result.bind CloudflareResultBody.image
  if response.success && jsTruthy imageField then
    { success := true
      image := some ("data:image/png;base64," ++ imageField.getD "")
      error := none }
  else
    let errorMessage :=
      jsOrString ((response.errors.bind List.head?).map CloudflareErrorEntry.message)
        "Failed to generate image."
    { success := false
      image := none
      error := some
        { code := .SERVER_ERROR
          message := errorMessage
          retryAfter := none
          shouldFallback := false } }

/-- The `defaultMessages` record inside `classifyCloudflareError`
(`src/lib/providers/cloudflare-provider.ts`). -/
def cloudflareDefaultMessages : ProviderErrorCode → String
  | .RATE_LIMIT => "Too many requests. Please try again later."
  | .TIMEOUT => "Request timed out. Please try again."
  | .SERVICE_UNAVAILABLE => "Service is currently unavailable. Please try again later."
  | .SERVER_ERROR => "A server error occurred. Please try again."
  | .UNAUTHORIZED => "Authentication error occurred."
  | .VALIDATION_ERROR => "Invalid request. Please check your input."
  | .PAYMENT_REQUIRED => "Service quota exhausted."
  | .UNKNOWN => "An unexpected error occurred."

/-- `classifyCloudflareError` from
`src/lib/providers/cloudflare-provider.ts`: same status→code mapping as the
primary classifier, but the retry hint is kept only for RATE_LIMIT and
`shouldFallback` is always false. -/
def classifyCloudflareError (status : Nat) (message : Option String)
    (retryAfter : Option Nat) : ProviderError :=
  let code := httpStatusToErrorCode status
  { code := code
    message := jsOrString message (cloudflareDefaultMessages code)
    retryAfter := if code = .RATE_LIMIT then retryAfter else none
    shouldFallback := false }

deriving instance DecidableEq for Except

/-- Outcome of the single `fetch` attempted by an adapter: the promise was
rejected with an `AbortError` (the adapter's own timeout fired), rejected
with some other error (carrying a message when the thrown value was an
`Error` instance), or resolved to a response of type `β`. -/
inductive FetchOutcome (β : Type) where
  | abortError
  | fetchError (message : Option String)
  | response (resp : β)
deriving DecidableEq, Repr

/-- The parts of a resolved HTTP response that the HuggingFace adapter
reads: `ok`, `status`, the parsed `Retry-After` header (`parseRetryAfter`),
the best-effort body error message (`getErrorMessage`), and the result of
the blob → base64 conversion on the success path (`Except.error` when that
processing throws). -/
structure HfHttpResponse where
  ok : Bool
  status : Nat
  retryAfterHeader : Option Nat := none
  errorMessage : Option String := none
  body : Except Unit String
deriving DecidableEq, Repr

/-- The parts of a resolved HTTP response that the Cloudflare adapter
reads: `ok`, `status`, the parsed `Retry-After` header, the best-effort
body error message, and the result of `response.json()` on the success
path (`Except.error` when parsing throws). -/
structure CfHttpResponse where
  ok : Bool
  status : Nat
  retryAfterHeader : Option Nat := none
  errorMessage : Option String := none
  body : Except Unit CloudflareImageResponse
deriving DecidableEq, Repr

/-- `HuggingFaceProvider.generate` from
`src/lib/providers/huggingface-provider.ts`.  `apiKey` is the result of
`getHuggingFaceApiKey` (`none` when it throws); `fetch` is the outcome of
the network call.  Returns the `ProviderResult` paired with a flag that is
true exactly when the network call was attempted. -/
def HuggingFaceProvider.generate (apiKey : Option String)
    (fetch : FetchOutcome HfHttpResponse)
    (_prompt : String) (_options : GenerationOptions) : ProviderResult × Bool :=
  match apiKey with
  | none =>
    ({ success := false
       image := none
       error := some
         { code := .SERVER_ERROR
           message := "Server configuration error."
           retryAfter := none
           shouldFallback := false } },
     false)
  | some _ =>
    match fetch with
    | .abortError =>
      ({ success := false, image := none, error := some createTimeoutError }, true)
    | .fetchError msg =>
      ({ success := false
         image := none
         error := some
           { code := .SERVER_ERROR
             message := msg.getD "Network error occurred."
             retryAfter := none
             shouldFallback := true } },
       true)
    | .response resp =>
      if resp.ok then
        match resp.body with
        | .ok base64Image =>
          ({ success := true
             image := some ("data:image/png;base64," ++ base64Image)
             error := none },
           true)
        | .error _ =>
          ({ success := false
             image := none
             error := some
               { code := .SERVER_ERROR
                 message := "Failed to process image response."
                 retryAfter := none
                 shouldFallback := true } },
           true)
      else
        ({ success := false
           image := none
           error := some (createProviderError resp.status resp.errorMessage resp.retryAfterHeader) },
         true)

/-- `CloudflareProvider.generate` from
`src/lib/providers/cloudflare-provider.ts`.  `accountId` and `apiToken`
are the results of the two credential getters (`none` when the getter
throws); `fetch` is the outcome of the network call.  Returns the
`ProviderResult` paired with a flag that is true exactly when the network
call was attempted. -/
def CloudflareProvider.generate (accountId apiToken : Option String)
    (fetch : FetchOutcome CfHttpResponse)
    (_prompt : String) (_options : GenerationOptions) : ProviderResult × Bool :=
  match accountId with
  | none =>
    ({ success := false
       image := none
       error := some
         { code := .SERVER_ERROR
           message := "Server configuration error."
           retryAfter := none
           shouldFallback := false } },
     false)
  | some _ =>
    match apiToken with
    | none =>
      ({ success := false
         image := none
         error := some
           { code := .SERVER_ERROR
             message := "Server configuration error."
             retryAfter := none
             shouldFallback := false } },
       false)
    | some _ =>
      match fetch with
      | .abortError =>
        ({ success := false
           image := none
           error := some
             { code := .TIMEOUT
               message := "Request timed out. Please try again."
               retryAfter := none
               shouldFallback := false } },
         true)
      | .fetchError msg =>
        ({ success := false
           image := none
           error := some
             { code := .SERVER_ERROR
               message := msg.getD "Network error occurred."
               retryAfter := none
               shouldFallback := false } },
         true)
      | .response resp =>
        if resp.ok then
          match resp.body with
          | .ok data => (transformCloudflareResponse data, true)
          | .error _ =>
            ({ success := false
               image := none
               error := some
                 { code := .SERVER_ERROR
                   message := "Failed to parse response."
                   retryAfter := none
                   shouldFallback := false } },
             true)
        else
          ({ success := false
             image := none
             error := some
               (classifyCloudflareError resp.status resp.errorMessage resp.retryAfterHeader) },
           true)

/-- Provider names, from `src/lib/providers/types.ts` (`ProviderName`). -/
inductive ProviderName where
  | huggingface
  | cloudflare
deriving DecidableEq, Repr

/-- The `ImageProvider` interface from `src/lib/providers/types.ts`: a name
and a generate function.  For the orchestrator's behavior only the returned
`ProviderResult` matters, so `generate` is modelled as a pure function of
the prompt and options. -/
structure ImageProvider where
  name : ProviderName
  generate : String → GenerationOptions → ProviderResult

/-- `DualProviderError` from the provider-manager module. -/
structure DualProviderError where
  code : String
  message : String
  primaryError : String
  fallbackError : String
  retryAfter : Option Nat := none
  shouldFallback : Bool
deriving DecidableEq, Repr

/-- Error slot of a `GenerationResult`: either a single provider error or a
dual-provider failure (`error?: ProviderError | DualProviderError`). -/
inductive GenerationError where
  | provider (e : ProviderError)
  | dual (e : DualProviderError)
deriving DecidableEq, Repr

/-- `GenerationResult` from the provider-manager module.  Fields the source
leaves out of an object literal are `none`. -/
structure GenerationResult where
  success : Bool
  image : Option String := none
  provider : Option ProviderName := none
  error : Option GenerationError := none
  fallbackAttempted : Option Bool := none
deriving DecidableEq, Repr

/-- `ProviderManager.calculateMinRetryTime` from the provider-manager
module: minimum when both providers carry a retry time, the defined one
when only one does, `none` otherwise. -/
def calculateMinRetryTime (primaryError : ProviderError)
    (fallbackError : Option ProviderError) : Option Nat :=
  let primaryRetry := primaryError.retryAfter
  let fallbackRetry := fallbackError.bind ProviderError.retryAfter
  match primaryRetry, fallbackRetry with
  | some p, some f => some (min p f)
  | some p, none => some p
  | none, some f => some f
  | none, none => none

/-- `ProviderManager.createDualProviderError` from the provider-manager
module.  `fallbackError?.message || 'Unknown fallback error'` uses
JavaScript truthiness, captured by `jsOrString`. -/
def createDualProviderError (primaryError : ProviderError)
    (fallbackError : Option ProviderError) : DualProviderError :=
  { code := "DUAL_PROVIDER_FAILURE"
    message := "Both image generation services are currently unavailable."
    primaryError := primaryError.message
    fallbackError := jsOrString (fallbackError.map ProviderError.message) "Unknown fallback error"
    retryAfter := calculateMinRetryTime primaryError fallbackError
    shouldFallback := false }

/-- Which of the manager's two adapter fields was invoked. -/
inductive AdapterRole where
  | primary
  | secondary
deriving DecidableEq, Repr

/-- One recorded adapter invocation: which adapter was called and the
prompt and options it received. -/
structure AdapterCall where
  adapter : AdapterRole
  prompt : String
  options : GenerationOptions
deriving DecidableEq, Repr

/-- `ProviderManager.generate` from the provider-manager module, paired
with the ordered list of adapter invocations it performs.  The guard
`!primaryError?.shouldFallback` treats a missing error like a
non-recoverable one (optional chaining yields `undefined`, which is
falsy), which is the `none` branch of the match below. -/
def ProviderManager.generate (primaryProvider fallbackProvider : ImageProvider)
    (prompt : String) (options : GenerationOptions) :
    GenerationResult × List AdapterCall :=
  let primaryResult := primaryProvider.generate prompt options
  if primaryResult.success then
    ({ success := true
       image := primaryResult.image
       provider := some primaryProvider.name
       error := none
       fallbackAttempted := some false },
     [{ adapter := .primary, prompt := prompt, options := options }])
  else
    match primaryResult.error with
    | none =>
      ({ success := false
         image := none
         provider := some primaryProvider.name
         error := none
         fallbackAttempted := some false },
       [{ adapter := .primary, prompt := prompt, options := options }])
    | some primaryError =>
      if primaryError.shouldFallback = false then
        ({ success := false
           image := none
           provider := some primaryProvider.name
           error := some (.provider primaryError)
           fallbackAttempted := some false },
         [{ adapter := .primary, prompt := prompt, options := options }])
      else
        let fallbackResult := fallbackProvider.generate prompt options
        if fallbackResult.success then
          ({ success := true
             image := fallbackResult.image
             provider := some fallbackProvider.name
             error := none
             fallbackAttempted := some true },
           [{ adapter := .primary, prompt := prompt, options := options },
            { adapter := .secondary, prompt := prompt, options := options }])
        else
          let dualError := createDualProviderError primaryError fallbackResult.error
          ({ success := false
             image := none
             provider := none
             error := some (.dual dualError)
             fallbackAttempted := some true },
           [{ adapter := .primary, prompt := prompt, options := options },
            { adapter := .secondary, prompt := prompt, options := options }])

/-- On primary success the manager returns the primary image with primary
provenance and records only the primary call. -/
theorem generate_primary_success
    (primaryProvider fallbackProvider : ImageProvider)
    (prompt : String) (options : GenerationOptions)
    (h : (primaryProvider.generate prompt options).success = true) :
    ProviderManager.generate primaryProvider fallbackProvider prompt options =
      ({ success := true
         image := (primaryProvider.generate prompt options).image
         provider := some primaryProvider.name
         error := none
         fallbackAttempted := some false },
       [{ adapter := .primary, prompt := prompt, options := options }]) := by
  unfold ProviderManager.generate
  simp [h]

/-- On a primary failure that carries no error object the manager returns
failure without error and without invoking the fallback. -/
theorem generate_primary_failure_no_error
    (primaryProvider fallbackProvider : ImageProvider)
    (prompt : String) (options : GenerationOptions)
    (h : (primaryProvider.generate prompt options).success = false)
    (he : (primaryProvider.generate prompt options).error = none) :
    ProviderManager.generate primaryProvider fallbackProvider prompt options =
      ({ success := false
         image := none
         provider := some primaryProvider.name
         error := none
         fallbackAttempted := some false },
       [{ adapter := .primary, prompt := prompt, options := options }]) := by
  unfold ProviderManager.generate
  simp [h, he]

/-- On a non-recoverable primary failure the manager returns that error
verbatim with primary provenance and no fallback call. -/
theorem generate_primary_failure_no_fallback
    (primaryProvider fallbackProvider : ImageProvider)
    (prompt : String) (options : GenerationOptions) (e : ProviderError)
    (h : (primaryProvider.generate prompt options).success = false)
    (he : (primaryProvider.generate prompt options).error = some e)
    (hsf : e.shouldFallback = false) :
    ProviderManager.generate primaryProvider fallbackProvider prompt options =
      ({ success := false
         image := none
         provider := some primaryProvider.name
         error := some (.provider e)
         fallbackAttempted := some false },
       [{ adapter := .primary, prompt := prompt, options := options }]) := by
  unfold ProviderManager.generate
  simp [h, he, hsf]

/-- On a recoverable primary failure followed by fallback success the
manager returns the fallback image with fallback provenance and records
both calls. -/
theorem generate_fallback_success
    (primaryProvider fallbackProvider : ImageProvider)
    (prompt : String) (options : GenerationOptions) (e : ProviderError)
    (h : (primaryProvider.generate prompt options).success = false)
    (he : (primaryProvider.generate prompt options).error = some e)
    (hsf : e.shouldFallback = true)
    (hf : (fallbackProvider.generate prompt options).success = true) :
    ProviderManager.generate primaryProvider fallbackProvider prompt options =
      ({ success := true
         image := (fallbackProvider.generate prompt options).image
         provider := some fallbackProvider.name
         error := none
         fallbackAttempted := some true },
       [{ adapter := .primary, prompt := prompt, options := options },
        { adapter := .secondary, prompt := prompt, options := options }]) := by
  unfold ProviderManager.generate
  simp [h, he, hsf, hf]

/-- On a recoverable primary failure followed by fallback failure the
manager returns the dual-provider error with no provenance and records
both calls. -/
theorem generate_dual_failure
    (primaryProvider fallbackProvider : ImageProvider)
    (prompt : String) (options : GenerationOptions) (e : ProviderError)
    (h : (primaryProvider.generate prompt options).success = false)
    (he : (primaryProvider.generate prompt options).error = some e)
    (hsf : e.shouldFallback = true)
    (hf : (fallbackProvider.generate prompt options).success = false) :
    ProviderManager.generate primaryProvider fallbackProvider prompt options =
      ({ success := false
         image := none
         provider := none
         error := some (.dual
           (createDualProviderError e (fallbackProvider.generate prompt options).error))
         fallbackAttempted := some true },
       [{ adapter := .primary, prompt := prompt, options := options },
        { adapter := .secondary, prompt := prompt, options := options }]) := by
  unfold ProviderManager.generate
  simp [h, he, hsf, hf]

/-- A provider stub returning a fixed result, as
`createProviderManagerWithProviders` admits for testing. -/
def stubProvider (name : ProviderName) (result : ProviderResult) : ImageProvider :=
  { name := name, generate := fun _ _ => result }

/-- Sample options for concrete instantiations. -/
def sampleOptions : GenerationOptions := { style := .default }

/-- A primary stub that succeeds with a fixed image. -/
def primaryOk : ImageProvider :=
  stubProvider .huggingface { success := true, image := some "data:image/png;base64,QUJD" }

/-- A secondary stub that succeeds with a fixed image. -/
def secondaryOk : ImageProvider :=
  stubProvider .cloudflare { success := true, image := some "data:image/png;base64,REVG" }

/-- A primary stub failing with a recoverable rate limit, retry 30s. -/
def primaryRateLimited : ImageProvider :=
  stubProvider .huggingface
    { success := false
      error := some
        { code := .RATE_LIMIT, message := "Too many requests. Please try again later."
          retryAfter := some 30, shouldFallback := true } }

/-- A secondary stub failing with a non-recoverable rate limit, retry 45s. -/
def secondaryRateLimited : ImageProvider :=
  stubProvider .cloudflare
    { success := false
      error := some
        { code := .RATE_LIMIT, message := "Too many requests. Please try again later."
          retryAfter := some 45, shouldFallback := false } }

/-- A secondary stub failing without any error object. -/
def secondaryNoError : ImageProvider :=
  stubProvider .cloudflare { success := false, error := none }

/-- A primary stub failing with a non-recoverable validation error. -/
def primaryValidationFailed : ImageProvider :=
  stubProvider .huggingface
    { success := false
      error := some
        { code := .VALIDATION_ERROR, message := "Invalid request. Please check your input."
          retryAfter := none, shouldFallback := false } }

/-- C1: for every prompt and options, `ProviderManager.generate` invokes the
primary adapter first and exactly once; the secondary adapter is invoked iff
the primary call returned a failure whose `shouldFallback` flag is true; on
primary success the result is success with primary provenance and
`fallbackAttempted = false`; on a non-recoverable primary failure that error
is returned verbatim with primary provenance, `fallbackAttempted = false`,
and no secondary call. -/
theorem c1_primary_first_fallback_iff
    (primaryProvider fallbackProvider : ImageProvider)
    (prompt : String) (options : GenerationOptions) :
    (ProviderManager.generate primaryProvider fallbackProvider prompt options).2.head? =
      some { adapter := .primary, prompt := prompt, options := options } ∧
    (ProviderManager.generate primaryProvider fallbackProvider prompt options).2.countP
      (fun c => c.adapter = AdapterRole.primary) = 1 ∧
    ((∃ c ∈ (ProviderManager.generate primaryProvider fallbackProvider prompt options).2,
        c.adapter = AdapterRole.secondary) ↔
      ((primaryProvider.generate prompt options).success = false ∧
        ∃ e, (primaryProvider.generate prompt options).error = some e ∧
          e.shouldFallback = true)) ∧
    ((primaryProvider.generate prompt options).success = true →
      (ProviderManager.generate primaryProvider fallbackProvider prompt options).1 =
        { success := true
          image := (primaryProvider.generate prompt options).image
          provider := some primaryProvider.name
          error := none
          fallbackAttempted := some false }) ∧
    (∀ e, (primaryProvider.generate prompt options).success = false →
      (primaryProvider.generate prompt options).error = some e →
      e.shouldFallback = false →
      (ProviderManager.generate primaryProvider fallbackProvider prompt options).1 =
        { success := false
          image := none
          provider := some primaryProvider.name
          error := some (.provider e)
          fallbackAttempted := some false }) := by
  cases h : (primaryProvider.generate prompt options).success with
  | true =>
    rw [generate_primary_success primaryProvider fallbackProvider prompt options h]
    refine ⟨rfl, by simp, by simp, fun _ => rfl, ?_⟩
    intro e hfail _ _
    cases hfail
  | false =>
    cases he : (primaryProvider.generate prompt options).error with
    | none =>
      rw [generate_primary_failure_no_error primaryProvider fallbackProvider prompt options h he]
      refine ⟨rfl, by simp, by simp, ?_, ?_⟩
      · intro hs; cases hs
      · intro e _ he' _
        cases he'
    | some e =>
      cases hsf : e.shouldFallback with
      | false =>
        rw [generate_primary_failure_no_fallback primaryProvider fallbackProvider prompt options e h he hsf]
        refine ⟨rfl, by simp, by simp [hsf], ?_, ?_⟩
        · intro hs; cases hs
        · intro e' _ he' _
          injection he' with hh
          subst hh
          rfl
      | true =>
        cases hf : (fallbackProvider.generate prompt options).success with
        | true =>
          rw [generate_fallback_success primaryProvider fallbackProvider prompt options e h he hsf hf]
          refine ⟨rfl, by simp, by simp [hsf], ?_, ?_⟩
          · intro hs; cases hs
          · intro e' _ he' hsf'
            injection he' with hh
            subst hh
            rw [hsf] at hsf'
            cases hsf'
        | false =>
          rw [generate_dual_failure primaryProvider fallbackProvider prompt options e h he hsf hf]
          refine ⟨rfl, by simp, by simp [hsf], ?_, ?_⟩
          · intro hs; cases hs
          · intro e' _ he' hsf'
            injection he' with hh
            subst hh
            rw [hsf] at hsf'
            cases hsf'

/-- C1 witness: on a concrete primary success the manager returns the
primary image with primary provenance and no fallback. -/
theorem c1_primary_first_fallback_iff_witness :
    (ProviderManager.generate primaryOk secondaryOk "icon" sampleOptions).1 =
      { success := true
        image := some "data:image/png;base64,QUJD"
        provider := some .huggingface
        error := none
        fallbackAttempted := some false } :=
  (c1_primary_first_fallback_iff primaryOk secondaryOk "icon" sampleOptions).2.2.2.1 rfl

/-- C2: statuses in {402, 403, 429, 500, 503} and every status in
[500, 600) classify as recoverable for the primary adapter; 400 and 401
classify as non-recoverable; and the secondary adapter's classification of
any status whatsoever is non-recoverable. -/
theorem c2_recoverability_partition :
    (∀ status, status ∈ FALLBACK_HTTP_STATUSES → shouldTriggerFallback status = true) ∧
    (∀ status : Nat, 500 ≤ status → status < 600 → shouldTriggerFallback status = true) ∧
    shouldTriggerFallback 400 = false ∧
    shouldTriggerFallback 401 = false ∧
    (∀ status message retryAfter,
      (classifyCloudflareError status message retryAfter).shouldFallback = false) := by
  refine ⟨by decide, ?_, by decide, by decide, fun _ _ _ => rfl⟩
  intro status h₁ h₂
  unfold shouldTriggerFallback
  split_ifs with hA hB
  · rfl
  · exfalso
    simp only [NON_FALLBACK_HTTP_STATUSES, List.mem_cons, List.not_mem_nil, or_false] at hB
    omega
  · rfl
  · omega

/-- C2 witness: 429 and 507 are recoverable for the primary adapter while
the secondary classifies 429 as non-recoverable. -/
theorem c2_recoverability_partition_witness :
    shouldTriggerFallback 429 = true ∧
    shouldTriggerFallback 507 = true ∧
    (classifyCloudflareError 429 none (some 7)).shouldFallback = false :=
  ⟨c2_recoverability_partition.1 429 (by decide),
   c2_recoverability_partition.2.1 507 (by decide) (by decide),
   c2_recoverability_partition.2.2.2.2 429 none (some 7)⟩

/-- C3 counterexample: when the primary adapter's credential resolution
fails, the returned error has `shouldFallback = false`, not the `true` the
claim requires for the primary role. -/
theorem c3_counterexample :
    ¬ ((HuggingFaceProvider.generate none FetchOutcome.abortError "icon" sampleOptions).1.error.map
        ProviderError.shouldFallback = some true) := by
  decide

/-- C3 amended: if an adapter's credential resolution fails, `generate`
returns a SERVER_ERROR failure without attempting any network call, with
`shouldFallback = false` for the primary adapter as well as for the
secondary adapter. -/
theorem c3_amended_credential_failure
    (fetchHf : FetchOutcome HfHttpResponse) (fetchCf : FetchOutcome CfHttpResponse)
    (accountId apiToken : Option String)
    (prompt : String) (options : GenerationOptions) :
    HuggingFaceProvider.generate none fetchHf prompt options =
      ({ success := false
         image := none
         error := some
           { code := .SERVER_ERROR
             message := "Server configuration error."
             retryAfter := none
             shouldFallback := false } },
       false) ∧
    CloudflareProvider.generate none apiToken fetchCf prompt options =
      ({ success := false
         image := none
         error := some
           { code := .SERVER_ERROR
             message := "Server configuration error."
             retryAfter := none
             shouldFallback := false } },
       false) ∧
    CloudflareProvider.generate accountId none fetchCf prompt options =
      ({ success := false
         image := none
         error := some
           { code := .SERVER_ERROR
             message := "Server configuration error."
             retryAfter := none
             shouldFallback := false } },
       false) := by
  refine ⟨rfl, rfl, ?_⟩
  cases accountId <;> rfl

/-- C3 amended witness: a concrete credential-resolution failure of the
primary adapter yields the non-recoverable configuration error with no
network call. -/
theorem c3_amended_credential_failure_witness :
    HuggingFaceProvider.generate none FetchOutcome.abortError "icon" sampleOptions =
      ({ success := false
         image := none
         error := some
           { code := .SERVER_ERROR
             message := "Server configuration error."
             retryAfter := none
             shouldFallback := false } },
       false) :=
  (c3_amended_credential_failure FetchOutcome.abortError FetchOutcome.abortError none none
    "icon" sampleOptions).1

/-- C4: when the recoverable primary failure is followed by a fallback
failure, the manager returns the dual-provider error: its retry time is the
minimum of the two when both are defined, the defined one when exactly one
is, absent when neither is; it is non-recoverable; the result has
`fallbackAttempted = true` and no provider identity. -/
theorem c4_dual_failure_min_retry
    (primaryProvider fallbackProvider : ImageProvider)
    (prompt : String) (options : GenerationOptions) (e e' : ProviderError)
    (hps : (primaryProvider.generate prompt options).success = false)
    (hpe : (primaryProvider.generate prompt options).error = some e)
    (hsf : e.shouldFallback = true)
    (hfs : (fallbackProvider.generate prompt options).success = false)
    (hfe : (fallbackProvider.generate prompt options).error = some e') :
    ∃ d : DualProviderError,
      (ProviderManager.generate primaryProvider fallbackProvider prompt options).1 =
        { success := false
          image := none
          provider := none
          error := some (.dual d)
          fallbackAttempted := some true } ∧
      d.shouldFallback = false ∧
      (∀ a b, e.retryAfter = some a → e'.retryAfter = some b →
        d.retryAfter = some (min a b)) ∧
      (∀ a, e.retryAfter = some a → e'.retryAfter = none → d.retryAfter = some a) ∧
      (∀ b, e.retryAfter = none → e'.retryAfter = some b → d.retryAfter = some b) ∧
      (e.retryAfter = none → e'.retryAfter = none → d.retryAfter = none) := by
  refine ⟨createDualProviderError e (fallbackProvider.generate prompt options).error, ?_, rfl,
    ?_, ?_, ?_, ?_⟩
  · rw [generate_dual_failure primaryProvider fallbackProvider prompt options e hps hpe hsf hfs]
  · intro a b ha hb
    simp [createDualProviderError, calculateMinRetryTime, hfe, ha, hb]
  · intro a ha hb
    simp [createDualProviderError, calculateMinRetryTime, hfe, ha, hb]
  · intro b ha hb
    simp [createDualProviderError, calculateMinRetryTime, hfe, ha, hb]
  · intro ha hb
    simp [createDualProviderError, calculateMinRetryTime, hfe, ha, hb]

/-- C4 witness: primary rate-limited at 30s and secondary rate-limited at
45s yield a dual failure whose retry time is 30. -/
theorem c4_dual_failure_min_retry_witness :
    ∃ d : DualProviderError,
      (ProviderManager.generate primaryRateLimited secondaryRateLimited "icon" sampleOptions).1 =
        { success := false
          image := none
          provider := none
          error := some (.dual d)
          fallbackAttempted := some true } ∧
      d.shouldFallback = false ∧
      d.retryAfter = some 30 := by
  obtain ⟨d, hres, hsf, hmin, -, -, -⟩ :=
    c4_dual_failure_min_retry primaryRateLimited secondaryRateLimited "icon" sampleOptions
      { code := .RATE_LIMIT, message := "Too many requests. Please try again later."
        retryAfter := some 30, shouldFallback := true }
      { code := .RATE_LIMIT, message := "Too many requests. Please try again later."
        retryAfter := some 45, shouldFallback := false }
      rfl rfl rfl rfl rfl
  exact ⟨d, hres, hsf, hmin 30 45 rfl rfl⟩

/-- C5: every adapter invocation the manager performs — in particular every
fallback invocation — receives exactly the prompt and options of the
original request, so the secondary sees values identical to those the
primary received. -/
theorem c5_parameter_preservation
    (primaryProvider fallbackProvider : ImageProvider)
    (prompt : String) (options : GenerationOptions) :
    ∀ c ∈ (ProviderManager.generate primaryProvider fallbackProvider prompt options).2,
      c.prompt = prompt ∧ c.options = options := by
  intro c hc
  cases h : (primaryProvider.generate prompt options).success with
  | true =>
    rw [generate_primary_success primaryProvider fallbackProvider prompt options h] at hc
    simp only [List.mem_singleton] at hc
    subst hc
    exact ⟨rfl, rfl⟩
  | false =>
    cases he : (primaryProvider.generate prompt options).error with
    | none =>
      rw [generate_primary_failure_no_error primaryProvider fallbackProvider prompt options h he] at hc
      simp only [List.mem_singleton] at hc
      subst hc
      exact ⟨rfl, rfl⟩
    | some e =>
      cases hsf : e.shouldFallback with
      | false =>
        rw [generate_primary_failure_no_fallback primaryProvider fallbackProvider prompt options
          e h he hsf] at hc
        simp only [List.mem_singleton] at hc
        subst hc
        exact ⟨rfl, rfl⟩
      | true =>
        cases hf : (fallbackProvider.generate prompt options).success with
        | true =>
          rw [generate_fallback_success primaryProvider fallbackProvider prompt options
            e h he hsf hf] at hc
          simp only [List.mem_cons, List.mem_singleton, List.not_mem_nil, or_false] at hc
          cases hc with
          | inl hc => subst hc; exact ⟨rfl, rfl⟩
          | inr hc => subst hc; exact ⟨rfl, rfl⟩
        | false =>
          rw [generate_dual_failure primaryProvider fallbackProvider prompt options
            e h he hsf hf] at hc
          simp only [List.mem_cons, List.mem_singleton, List.not_mem_nil, or_false] at hc
          cases hc with
          | inl hc => subst hc; exact ⟨rfl, rfl⟩
          | inr hc => subst hc; exact ⟨rfl, rfl⟩

/-- C5 witness: in a concrete fallback run the secondary call carries the
original prompt and options. -/
theorem c5_parameter_preservation_witness :
    ({ adapter := .secondary, prompt := "icon", options := sampleOptions } : AdapterCall).prompt =
      "icon" ∧
    ({ adapter := .secondary, prompt := "icon", options := sampleOptions } : AdapterCall).options =
      sampleOptions :=
  c5_parameter_preservation primaryRateLimited secondaryOk "icon" sampleOptions
    { adapter := .secondary, prompt := "icon", options := sampleOptions } (by decide)

/-- C6 counterexample: the primary adapter's unprocessable-payload branch
(success status, body processing fails) returns `shouldFallback = true`,
not the `false` the claim requires for both adapters. -/
theorem c6_counterexample :
    ¬ ((HuggingFaceProvider.generate (some "key")
          (.response { ok := true, status := 200, retryAfterHeader := none
                       errorMessage := none, body := .error () })
          "icon" sampleOptions).1.error.map ProviderError.shouldFallback = some false) := by
  decide

/-- C6 amended: when a backend responds with a success status but the image
payload is absent or cannot be processed, the adapter returns a
SERVER_ERROR failure — with `shouldFallback = false` for the secondary
adapter (missing image field and unparsable body alike) but
`shouldFallback = true` for the primary adapter. -/
theorem c6_amended_malformed_success :
    (∀ response : CloudflareImageResponse,
      (response.success && jsTruthy (response.result.bind CloudflareResultBody.image)) = false →
      ∃ msg, transformCloudflareResponse response =
        { success := false
          image := none
          error := some
            { code := .SERVER_ERROR
              message := msg
              retryAfter := none
              shouldFallback := false } }) ∧
    (∀ (key token prompt : String) (options : GenerationOptions) (status : Nat)
        (retryAfterHeader : Option Nat) (errorMessage : Option String),
      (CloudflareProvider.generate (some key) (some token)
        (.response { ok := true, status := status, retryAfterHeader := retryAfterHeader
                     errorMessage := errorMessage, body := .error () })
        prompt options).1 =
        { success := false
          image := none
          error := some
            { code := .SERVER_ERROR
              message := "Failed to parse response."
              retryAfter := none
              shouldFallback := false } }) ∧
    (∀ (key prompt : String) (options : GenerationOptions) (status : Nat)
        (retryAfterHeader : Option Nat) (errorMessage : Option String),
      (HuggingFaceProvider.generate (some key)
        (.response { ok := true, status := status, retryAfterHeader := retryAfterHeader
                     errorMessage := errorMessage, body := .error () })
        prompt options).1 =
        { success := false
          image := none
          error := some
            { code := .SERVER_ERROR
              message := "Failed to process image response."
              retryAfter := none
              shouldFallback := true } }) := by
  refine ⟨?_, fun _ _ _ _ _ _ _ => rfl, fun _ _ _ _ _ _ => rfl⟩
  intro response h
  refine ⟨jsOrString ((response.errors.bind List.head?).map CloudflareErrorEntry.message)
      "Failed to generate image.", ?_⟩
  unfold transformCloudflareResponse
  simp [h]

/-- C6 amended witness: a success-status secondary response with no image
yields a non-recoverable SERVER_ERROR; a concrete primary unprocessable
payload yields a recoverable SERVER_ERROR. -/
theorem c6_amended_malformed_success_witness :
    (∃ msg, transformCloudflareResponse { success := true } =
      { success := false
        image := none
        error := some
          { code := .SERVER_ERROR
            message := msg
            retryAfter := none
            shouldFallback := false } }) ∧
    (HuggingFaceProvider.generate (some "key")
        (.response { ok := true, status := 200, retryAfterHeader := none
                     errorMessage := none, body := .error () })
        "icon" sampleOptions).1 =
      { success := false
        image := none
        error := some
          { code := .SERVER_ERROR
            message := "Failed to process image response."
            retryAfter := none
            shouldFallback := true } } :=
  ⟨c6_amended_malformed_success.1 { success := true } rfl,
   c6_amended_malformed_success.2.2 "key" "icon" sampleOptions 200 none none⟩

/-- C7 counterexample: the primary classifier given status 400 (code
VALIDATION_ERROR, not RATE_LIMIT) and a retry hint of 5 keeps the hint
instead of dropping it. -/
theorem c7_counterexample :
    (createProviderError 400 none (some 5)).code ≠ ProviderErrorCode.RATE_LIMIT ∧
    (createProviderError 400 none (some 5)).retryAfter ≠ none := by
  decide

/-- C7 amended: when the resulting code is not RATE_LIMIT, the secondary
classifier drops a supplied retry hint, while the primary classifier passes
the supplied hint through unchanged. -/
theorem c7_amended_retry_hint
    (status : Nat) (message : Option String) (retryAfter : Option Nat) :
    ((classifyCloudflareError status message retryAfter).code ≠ ProviderErrorCode.RATE_LIMIT →
      (classifyCloudflareError status message retryAfter).retryAfter = none) ∧
    ((createProviderError status message retryAfter).code ≠ ProviderErrorCode.RATE_LIMIT →
      (createProviderError status message retryAfter).retryAfter = retryAfter) := by
  constructor
  · intro h
    simp only [classifyCloudflareError] at h ⊢
    rw [if_neg h]
  · intro h
    simp only [createProviderError] at h ⊢
    rw [if_neg h]

/-- C7 amended witness: at status 400 with hint 5 the secondary drops the
hint and the primary keeps it. -/
theorem c7_amended_retry_hint_witness :
    (classifyCloudflareError 400 none (some 5)).retryAfter = none ∧
    (createProviderError 400 none (some 5)).retryAfter = some 5 :=
  ⟨(c7_amended_retry_hint 400 none (some 5)).1 (by decide),
   (c7_amended_retry_hint 400 none (some 5)).2 (by decide)⟩

/-- C8 counterexample: 408 lies outside the enumerated set and outside the
5xx range, yet the primary classifier maps it to TIMEOUT, not UNKNOWN. -/
theorem c8_counterexample :
    httpStatusToErrorCode 408 = ProviderErrorCode.TIMEOUT ∧
    httpStatusToErrorCode 408 ≠ ProviderErrorCode.UNKNOWN ∧
    408 ∉ ([400, 401, 402, 403, 429, 500, 503] : List Nat) ∧
    ¬ (500 ≤ 408 ∧ 408 < 600) := by
  decide

/-- C8 amended: every status outside {400, 401, 402, 403, 408, 429, 500,
503} and outside [500, 600) maps to UNKNOWN with no fallback; 408 maps to
TIMEOUT, also with no fallback — so no unclassified status ever triggers
fallback. -/
theorem c8_amended_unknown_statuses
    (status : Nat)
    (h₁ : status ∉ ([400, 401, 402, 403, 408, 429, 500, 503] : List Nat))
    (h₂ : ¬ (500 ≤ status ∧ status < 600)) :
    (httpStatusToErrorCode status = ProviderErrorCode.UNKNOWN ∧
      shouldTriggerFallback status = false) ∧
    (httpStatusToErrorCode 408 = ProviderErrorCode.TIMEOUT ∧
      shouldTriggerFallback 408 = false) := by
  simp only [List.mem_cons, List.not_mem_nil, or_false, not_or] at h₁
  refine ⟨⟨?_, ?_⟩, by decide, by decide⟩
  · unfold httpStatusToErrorCode
    split_ifs <;> first | rfl | omega
  · unfold shouldTriggerFallback
    split_ifs with hA hB
    · exfalso
      simp only [FALLBACK_HTTP_STATUSES, List.mem_cons, List.not_mem_nil, or_false] at hA
      omega
    · rfl
    · rfl

/-- C8 amended witness: status 404 maps to UNKNOWN and does not trigger
fallback; 408 maps to TIMEOUT and does not trigger fallback. -/
theorem c8_amended_unknown_statuses_witness :
    (httpStatusToErrorCode 404 = ProviderErrorCode.UNKNOWN ∧
      shouldTriggerFallback 404 = false) ∧
    (httpStatusToErrorCode 408 = ProviderErrorCode.TIMEOUT ∧
      shouldTriggerFallback 408 = false) :=
  c8_amended_unknown_statuses 404 (by decide) (by decide)

/-- C9 counterexample: the empty string is a base64 string (it encodes zero
bytes), but JavaScript truthiness sends it to the error branch, so the
adapter's output is not the data URL the claim requires. -/
theorem c9_counterexample :
    (transformCloudflareResponse
        { success := true, result := some { image := some "" } }).image ≠
      some ("data:image/png;base64," ++ "") ∧
    (transformCloudflareResponse
        { success := true, result := some { image := some "" } }).success = false := by
  decide

/-- C9 amended: for every nonempty base64 string S delivered by the
secondary backend as a successful image, the adapter's output is a success
whose image string is exactly the concatenation of the data-URL prefix and
S. -/
theorem c9_amended_data_url
    (S : String) (hS : S ≠ "")
    (errorList : Option (List CloudflareErrorEntry)) (messageList : Option (List String)) :
    transformCloudflareResponse
        { success := true, result := some { image := some S }
          errors := errorList, messages := messageList } =
      { success := true
        image := some ("data:image/png;base64," ++ S)
        error := none } := by
  unfold transformCloudflareResponse
  simp [jsTruthy, hS]

/-- C9 amended witness: the data-URL round trip at S = "QUJD". -/
theorem c9_amended_data_url_witness :
    transformCloudflareResponse
        { success := true, result := some { image := some "QUJD" } } =
      { success := true
        image := some ("data:image/png;base64," ++ "QUJD")
        error := none } :=
  c9_amended_data_url "QUJD" (by decide) none none

/-- C10: after a recoverable primary failure, a fallback failure carrying
no error object still yields a total result: a DUAL_PROVIDER_FAILURE whose
`fallbackError` message is the fixed string "Unknown fallback error" and
whose retry time is taken from the primary error alone. -/
theorem c10_missing_fallback_error
    (primaryProvider fallbackProvider : ImageProvider)
    (prompt : String) (options : GenerationOptions) (e : ProviderError)
    (hps : (primaryProvider.generate prompt options).success = false)
    (hpe : (primaryProvider.generate prompt options).error = some e)
    (hsf : e.shouldFallback = true)
    (hfs : (fallbackProvider.generate prompt options).success = false)
    (hfe : (fallbackProvider.generate prompt options).error = none) :
    (ProviderManager.generate primaryProvider fallbackProvider prompt options).1 =
      { success := false
        image := none
        provider := none
        error := some (.dual
          { code := "DUAL_PROVIDER_FAILURE"
            message := "Both image generation services are currently unavailable."
            primaryError := e.message
            fallbackError := "Unknown fallback error"
            retryAfter := e.retryAfter
            shouldFallback := false })
        fallbackAttempted := some true } := by
  rw [generate_dual_failure primaryProvider fallbackProvider prompt options e hps hpe hsf hfs]
  cases hr : e.retryAfter <;>
    simp [createDualProviderError, calculateMinRetryTime, jsOrString, hfe, hr]

/-- C10 witness: concrete rate-limited primary and error-less fallback
failure produce the dual error with the fixed fallback message and the
primary's retry time 30. -/
theorem c10_missing_fallback_error_witness :
    (ProviderManager.generate primaryRateLimited secondaryNoError "icon" sampleOptions).1 =
      { success := false
        image := none
        provider := none
        error := some (.dual
          { code := "DUAL_PROVIDER_FAILURE"
            message := "Both image generation services are currently unavailable."
            primaryError := "Too many requests. Please try again later."
            fallbackError := "Unknown fallback error"
            retryAfter := some 30
            shouldFallback := false })
        fallbackAttempted := some true } :=
  c10_missing_fallback_error primaryRateLimited secondaryNoError "icon" sampleOptions
    { code := .RATE_LIMIT, message := "Too many requests. Please try again later."
      retryAfter := some 30, shouldFallback := true }
    rfl rfl rfl rfl rfl

end Isometricon
